import Mathlib

/-!
# Verification of the Sentinel-API lifecycle/health/telemetry core

Shallow embedding of the operational core of `src/app` (request
interceptor middleware, dependency probes with retry, readiness /
metrics endpoints, drain sequencer, rate aggregator tick) together
with proofs of the behavioural claims about it.

Conventions of the embedding:
* Python mutable state is passed explicitly; every side effect on the
  metrics sink / logger is recorded as an event in an explicit trace.
* Wall-clock values are rationals (`ℚ`); the drain wait loop is
  discretised in 100 ms ticks, so a grace period of `g` seconds is
  `10 * g` ticks.
* The outcome of a probe attempt (the round-trip succeeding within its
  `asyncio.wait_for` bound, versus raising or timing out) is a `Bool`
  supplied externally, indexed by the attempt number.
-/

namespace Sentinel

/-! ## Request interceptor (`metrics_and_drain`, src/app/main.py lines 228-259;
identical body in `metrics_and_drain_middleware`, src/app/middleware.py) -/

/-- Outcome of `await call_next(request)`: either the downstream app produced
a response with the given status code, or it raised an exception that
propagates into the middleware. -/
inductive HandlerOutcome where
  | success : Nat → HandlerOutcome
  | failure : HandlerOutcome
deriving DecidableEq, Repr

/-- One observable side effect of the middleware, in program order. -/
inductive MwEvent where
  | incActive : MwEvent
  | decActive : MwEvent
  | countInc : String → String → Nat → MwEvent
  | observe : String → String → Nat → MwEvent
  | logRecord : String → String → String → Nat → Nat → MwEvent
  | setHeader : String → String → MwEvent
deriving DecidableEq, Repr

/-- Result of one pass through the middleware: the final value of
`state.active_requests`, the events emitted in order, and the status of the
returned response (`none` when the handler exception propagated outward). -/
structure MwResult where
  active : Int
  events : List MwEvent
  response : Option Nat
deriving DecidableEq, Repr

/-- `metrics_and_drain` (src/app/main.py): increments `active_requests`,
awaits the handler inside `try`, and decrements in `finally`.  Only when
`call_next` returned a response do the counter increment, histogram
observation, log record and header assignment that follow the `try` block
execute; an exception re-raised by `call_next` skips them. -/
def metrics_and_drain (active : Int) (requestId method path : String)
    (outcome : HandlerOutcome) (durMs : Nat) : MwResult :=
  match outcome with
  | .success status =>
      ⟨active + 1 - 1,
       [MwEvent.incActive, MwEvent.decActive,
        MwEvent.countInc method path status,
        MwEvent.observe method path durMs,
        MwEvent.logRecord requestId method path status durMs,
        MwEvent.setHeader "x-request-id" requestId],
       some status⟩
  | .failure =>
      ⟨active + 1 - 1, [MwEvent.incActive, MwEvent.decActive], none⟩

/-! ## Dependency probes with retry (src/app/main.py lines 266-299) -/

/-- One observable step of a probe: an attempt with its outcome, or the
`asyncio.sleep(0.3)` pause between attempts (in milliseconds). -/
inductive ProbeEvent where
  | attempted : Nat → Bool → ProbeEvent
  | sleepMs : Nat → ProbeEvent
deriving DecidableEq, Repr

/-- Result of a probe: verdict, label string, and trace of attempts/pauses. -/
structure ProbeResult where
  healthy : Bool
  label : String
  trace : List ProbeEvent
deriving DecidableEq, Repr

/-- The `for i in range(3)` retry loop shared by `check_db` and
`check_redis` in src/app/main.py, run over the remaining indices: a
successful attempt returns healthy at once; a failed attempt at `i == 2`
returns unhealthy; otherwise the loop sleeps 300 ms and retries.  (The `[]`
case is unreachable when started from `List.range 3`.) -/
def retryFrom (attempt : Nat → Bool) (okLabel failLabel : String) :
    List Nat → ProbeResult
  | [] => ⟨false, failLabel, []⟩
  | i :: rest =>
      if attempt i then ⟨true, okLabel, [ProbeEvent.attempted i true]⟩
      else if i == 2 then ⟨false, failLabel, [ProbeEvent.attempted i false]⟩
      else
        let r := retryFrom attempt okLabel failLabel rest
        ⟨r.healthy, r.label,
          ProbeEvent.attempted i false :: ProbeEvent.sleepMs 300 :: r.trace⟩

/-- `check_db` (src/app/main.py): healthy-with-label `db:disabled` when no
engine is configured, otherwise the 3-attempt retry loop.  `attempt i` is
whether the `asyncio.wait_for(asyncio.to_thread(_ping), dep_timeout)` of
attempt `i` completed successfully within the timeout. -/
def check_db (dbEngine : Bool) (attempt : Nat → Bool) : ProbeResult :=
  if !dbEngine then ⟨true, "db:disabled", []⟩
  else retryFrom attempt "db:ok" "db:fail" (List.range 3)

/-- `check_redis` (src/app/main.py): same shape as `check_db` with the
redis client and labels. -/
def check_redis (redisClient : Bool) (attempt : Nat → Bool) : ProbeResult :=
  if !redisClient then ⟨true, "redis:disabled", []⟩
  else retryFrom attempt "redis:ok" "redis:fail" (List.range 3)

/-- One probe attempt under `asyncio.wait_for`: it reports success only when
the underlying round-trip succeeds and its duration does not exceed the
per-attempt timeout (`SETTINGS.dep_timeout`); exceeding the timeout raises
`TimeoutError`, caught by the `except Exception` of the retry loop. -/
def attemptOk (depTimeout dur : ℚ) (pingOk : Bool) : Bool :=
  pingOk && decide (dur ≤ depTimeout)

/-! ## Modular probes (src/app/deps.py lines 12-41): a single guarded
attempt, no retry loop. -/

/-- `check_db` of src/app/deps.py: healthy when no engine is configured or
`sqlalchemy.text` failed to import; otherwise the verdict of a single
attempt. -/
def deps_check_db (dbEngine textAvailable : Bool) (attempt : Nat → Bool) : Bool :=
  if !dbEngine || !textAvailable then true
  else attempt 0

/-- `check_redis` of src/app/deps.py: healthy when no client is configured;
otherwise the verdict of a single attempt. -/
def deps_check_redis (redisClient : Bool) (attempt : Nat → Bool) : Bool :=
  if !redisClient then true
  else attempt 0

/-! ## Readiness endpoint (`ready`, src/app/main.py lines 311-323) -/

/-- Response of `GET /ready`: HTTP status, the `ready` field of the JSON
body, and whether the dependency probes were invoked at all. -/
structure ReadyResponse where
  status : Nat
  readyBody : Bool
  probesInvoked : Bool
deriving DecidableEq, Repr

/-- The `ready` endpoint: if `state.ready` is false it returns 503 /
`{"ready": false}` before calling any probe; otherwise it awaits `check_db`
and `check_redis`, takes the conjunction, and selects 200 or 503. -/
def ready (readyFlag dbEngine redisClient : Bool)
    (dbAttempt redisAttempt : Nat → Bool) : ReadyResponse :=
  if !readyFlag then ⟨503, false, false⟩
  else
    let db_ok := (check_db dbEngine dbAttempt).healthy
    let r_ok := (check_redis redisClient redisAttempt).healthy
    let ok := db_ok && r_ok
    ⟨if ok then 200 else 503, ok, true⟩

/-! ## Metrics endpoint (`metrics`, src/app/main.py lines 340-351) -/

/-- Python truthiness of `SETTINGS.metrics_token : Optional[str]`: an unset
variable is `None` and an empty string is falsy, so the auth branch runs
exactly when a non-empty token is configured. -/
def tokenConfigured : Option String → Bool
  | none => false
  | some t => t != ""

/-- The `metrics` endpoint: when a token is configured, missing or
mismatched credentials raise `HTTPException(403)` (`Except.error 403`);
otherwise the exposition body is returned with status 200. -/
def metrics (metricsToken : Option String) (creds : Option String) :
    Except Nat Nat :=
  if tokenConfigured metricsToken then
    match creds with
    | none => Except.error 403
    | some c => if c != metricsToken.getD "" then Except.error 403 else Except.ok 200
  else Except.ok 200

/-! ## Drain sequencer (`on_shutdown`, src/app/main.py lines 183-197;
identical body in src/app/lifespan.py lines 38-53) -/

/-- The wait loop
`while state.active_requests > 0 and time.time() < deadline: await asyncio.sleep(0.1)`
discretised in 100 ms ticks: `active k` is `state.active_requests` sampled
at the `k`-th evaluation of the loop condition and `fuel` is the number of
ticks left until `deadline`.  Returns the tick at which the loop exits. -/
def drainWait (active : Nat → Nat) : Nat → Nat → Nat
  | k, 0 => k
  | k, fuel + 1 => if 0 < active k then drainWait active (k + 1) fuel else k

/-- A resource-release step of `on_shutdown`, in program order. -/
inductive DrainEvent where
  | cancelRateTask : DrainEvent
  | releaseHttp : DrainEvent
  | releaseRedis : DrainEvent
  | releaseDb : DrainEvent
deriving DecidableEq, Repr

/-- Which optional resources `state` currently holds (rate task, httpx
client, redis client, database engine). -/
structure Resources where
  rateTask : Bool
  http : Bool
  redis : Bool
  dbEngine : Bool
deriving DecidableEq, Repr

/-- Which of the three release calls (`http.aclose`, `redis.close`,
`db_engine.dispose`) raises an exception when invoked. -/
structure ReleaseRaises where
  http : Bool
  redis : Bool
  db : Bool
deriving DecidableEq, Repr

/-- Runs a list of `(present, raises, event)` release steps in order.
A release is attempted only when its resource is present; an exception from
one release propagates out of `on_shutdown` at once, so the remaining steps
are skipped.  Returns the attempted events and whether an exception
escaped. -/
def runReleases : List (Bool × Bool × DrainEvent) → List DrainEvent × Bool
  | [] => ([], false)
  | (present, raises, e) :: rest =>
      if present then
        if raises then ([e], true)
        else
          let r := runReleases rest
          (e :: r.1, r.2)
      else runReleases rest

/-- Result of the drain sequence: the `ready` flag afterwards, the tick at
which the wait loop exited, the cancel/release events in order, and whether
a release exception escaped `on_shutdown`. -/
structure ShutdownResult where
  ready : Bool
  waitExitTick : Nat
  events : List DrainEvent
  excEscaped : Bool
deriving DecidableEq, Repr

/-- `on_shutdown` (src/app/main.py): waits until `active_requests` is 0 or
the grace deadline passes (`graceTicks` = grace period in 100 ms ticks),
cancels the rate task when one exists, then closes the httpx client, the
redis client, and the database engine, in that textual order, with no
exception handling around the closes.  The function never touches
`state.ready`. -/
def on_shutdown (readyFlag : Bool) (active : Nat → Nat) (graceTicks : Nat)
    (res : Resources) (raises : ReleaseRaises) : ShutdownResult :=
  let k := drainWait active 0 graceTicks
  let cancelEvs := if res.rateTask then [DrainEvent.cancelRateTask] else []
  let rel := runReleases
    [(res.http, raises.http, DrainEvent.releaseHttp),
     (res.redis, raises.redis, DrainEvent.releaseRedis),
     (res.dbEngine, raises.db, DrainEvent.releaseDb)]
  ⟨readyFlag, k, cancelEvs ++ rel.1, rel.2⟩

/-! ## Rate aggregator (`rate_loop`, src/app/main.py lines 363-370;
identical body in src/app/state.py lines 35-42) -/

/-- The accumulator and last-tick timestamp slice of `AppState`
(`_rate_window`, `_rate_ts`); timestamps are rationals standing for the
monotonic clock. -/
structure RateState where
  rateWindow : Nat
  rateTs : ℚ
deriving DecidableEq, Repr

/-- The `1e-6` epsilon floor of `rate_loop`, as an exact rational. -/
def rateEpsilon : ℚ := 1 / 1000000

/-- `record_prediction` (src/app/main.py / `AppState.record_prediction`):
adds `n` to the windowed accumulator (the lifetime total counter is a
separate monotonic metric and not part of this state). -/
def record_prediction (s : RateState) (n : Nat) : RateState :=
  ⟨s.rateWindow + n, s.rateTs⟩

/-- One iteration of the `while True` body of `rate_loop`, entered at
monotonic time `now`: computes
`rate = _rate_window / max(now - _rate_ts, 1e-6)`, publishes it to the
gauge (the returned `ℚ`), zeroes the accumulator and advances the
timestamp. -/
def rate_tick (s : RateState) (now : ℚ) : RateState × ℚ :=
  let rate := (s.rateWindow : ℚ) / max (now - s.rateTs) rateEpsilon
  (⟨0, now⟩, rate)

/-! ## Active-request accounting over interleaved traces -/

/-- An observable lifecycle event of one request passing the interceptor:
its increment on entry (`start id`) or its `finally` decrement on exit
(`stop id`). -/
inductive ReqEvent where
  | start : Nat → ReqEvent
  | stop : Nat → ReqEvent
deriving DecidableEq, Repr

/-- Effect of one event on `state.active_requests`. -/
def applyEvent (n : Int) : ReqEvent → Int
  | .start _ => n + 1
  | .stop _ => n - 1

/-- Value of `state.active_requests` after a trace, starting from 0. -/
def activeAfter (tr : List ReqEvent) : Int := tr.foldl applyEvent 0

/-- Ids of the requests started in a trace, in order. -/
def startsOf : List ReqEvent → List Nat
  | [] => []
  | .start i :: t => i :: startsOf t
  | .stop _ :: t => startsOf t

/-- Ids of the requests ended in a trace, in order. -/
def stopsOf : List ReqEvent → List Nat
  | [] => []
  | .start _ :: t => stopsOf t
  | .stop i :: t => i :: stopsOf t

/-- Well-formedness of a trace relative to the sets of already-started and
already-stopped ids: each request starts at most once, and stops only after
it started and at most once.  This is exactly the guarantee of the
interceptor `try`/`finally`: one increment per accepted request, one
decrement on its unique exit. -/
def wfFrom (started stopped : List Nat) : List ReqEvent → Bool
  | [] => true
  | .start i :: t => !(started.contains i) && wfFrom (i :: started) stopped t
  | .stop i :: t =>
      started.contains i && !(stopped.contains i) && wfFrom started (i :: stopped) t

/-- A trace of request events that the interceptor can produce. -/
def WFTrace (tr : List ReqEvent) : Bool := wfFrom [] [] tr

/-! ## Derived observations on probe traces -/

/-- Whether a probe event is an attempt (as opposed to a pause). -/
def isAttempt : ProbeEvent → Bool
  | .attempted _ _ => true
  | .sleepMs _ => false

/-- Number of attempts recorded in a probe trace. -/
def attemptsIn (tr : List ProbeEvent) : Nat := (tr.filter isAttempt).length

/-- Number of pauses recorded in a probe trace. -/
def sleepsIn (tr : List ProbeEvent) : Nat :=
  (tr.filter (fun e => !isAttempt e)).length

/-! ## The claims under test, as stated (used to exhibit counterexamples) -/

/-- Claim C1 as stated: on every pass through the interceptor, the handler
raising included, the exit accounting performs the decrement, the labelled
counter increment, the histogram observation and a structured log record
before the error propagates. -/
def statedC1 : Prop :=
  ∀ (active : Int) (rid m p : String) (o : HandlerOutcome) (d : Nat),
    MwEvent.decActive ∈ (metrics_and_drain active rid m p o d).events ∧
    (∃ s, MwEvent.countInc m p s ∈ (metrics_and_drain active rid m p o d).events) ∧
    MwEvent.observe m p d ∈ (metrics_and_drain active rid m p o d).events ∧
    (∃ s, MwEvent.logRecord rid m p s d ∈ (metrics_and_drain active rid m p o d).events)

/-- Claim C2 as stated: every run of the drain sequence leaves the ready
flag false, and every held resource gets cancelled/released even when an
earlier release raised. -/
def statedC2 : Prop :=
  ∀ (readyFlag : Bool) (active : Nat → Nat) (graceTicks : Nat)
    (res : Resources) (raises : ReleaseRaises),
    (on_shutdown readyFlag active graceTicks res raises).ready = false ∧
    (res.rateTask = true →
      DrainEvent.cancelRateTask ∈ (on_shutdown readyFlag active graceTicks res raises).events) ∧
    (res.http = true →
      DrainEvent.releaseHttp ∈ (on_shutdown readyFlag active graceTicks res raises).events) ∧
    (res.redis = true →
      DrainEvent.releaseRedis ∈ (on_shutdown readyFlag active graceTicks res raises).events) ∧
    (res.dbEngine = true →
      DrainEvent.releaseDb ∈ (on_shutdown readyFlag active graceTicks res raises).events)

/-- Claim C10 as stated: for every configured-dependency state and every
sequence of attempt outcomes, the probes of src/app/deps.py return the same
verdict as the probes of the same names in src/app/main.py. -/
def statedC10 : Prop :=
  ∀ (configured textAvailable : Bool) (attempt : Nat → Bool),
    deps_check_db configured textAvailable attempt =
      (check_db configured attempt).healthy ∧
    deps_check_redis configured attempt = (check_redis configured attempt).healthy

/-! ## Helper lemmas -/

lemma range3_eq : List.range 3 = [0, 1, 2] := rfl

lemma check_db_healthy_eq (att : Nat → Bool) :
    (check_db true att).healthy = (att 0 || att 1 || att 2) := by
  cases h0 : att 0 <;> cases h1 : att 1 <;> cases h2 : att 2 <;>
    simp [check_db, retryFrom, range3_eq, h0, h1, h2]

lemma check_redis_healthy_eq (att : Nat → Bool) :
    (check_redis true att).healthy = (att 0 || att 1 || att 2) := by
  cases h0 : att 0 <;> cases h1 : att 1 <;> cases h2 : att 2 <;>
    simp [check_redis, retryFrom, range3_eq, h0, h1, h2]

/-! ## C4: readiness short-circuit while draining -/

/-- C4: whenever the lifecycle ready flag is false, `GET /ready` returns
status 503 with body `ready = false` and invokes no dependency probe,
whatever the configured dependencies and whatever every probe would have
answered. -/
theorem c4_ready_short_circuit
    (readyFlag dbEngine redisClient : Bool)
    (dbAttempt redisAttempt : Nat → Bool)
    (h : readyFlag = false) :
    ready readyFlag dbEngine redisClient dbAttempt redisAttempt =
      ⟨503, false, false⟩ := by
  subst h
  simp [ready]

/-- Witness for C4 at a concrete not-ready state with all-healthy probes. -/
theorem c4_ready_short_circuit_witness :
    ready false true true (fun _ => true) (fun _ => true) = ⟨503, false, false⟩ :=
  c4_ready_short_circuit false true true (fun _ => true) (fun _ => true) rfl

/-- C7: with no (non-empty) bearer token configured, `GET /metrics` returns
200 for every request; with a token configured, missing credentials or a
differing token raise 403 Forbidden, and the exact matching token yields
200. -/
theorem c7_metrics_auth (t c : String) :
    (∀ creds, metrics none creds = Except.ok 200) ∧
    (t ≠ "" →
      metrics (some t) none = Except.error 403 ∧
      (c ≠ t → metrics (some t) (some c) = Except.error 403) ∧
      metrics (some t) (some t) = Except.ok 200) := by
  constructor
  · intro creds
    simp [metrics, tokenConfigured]
  · intro ht
    refine ⟨?_, ?_, ?_⟩
    · simp [metrics, tokenConfigured, ht]
    · intro hc
      simp [metrics, tokenConfigured, ht, hc]
    · simp [metrics, tokenConfigured, ht]

/-- Witness for C7 at the concrete token `"s3cret"` and wrong token
`"wrong"`. -/
theorem c7_metrics_auth_witness :
    metrics none none = Except.ok 200 ∧
    metrics (some "s3cret") none = Except.error 403 ∧
    metrics (some "s3cret") (some "wrong") = Except.error 403 ∧
    metrics (some "s3cret") (some "s3cret") = Except.ok 200 :=
  ⟨(c7_metrics_auth "s3cret" "wrong").1 none,
   ((c7_metrics_auth "s3cret" "wrong").2 (by decide)).1,
   ((c7_metrics_auth "s3cret" "wrong").2 (by decide)).2.1 (by decide),
   ((c7_metrics_auth "s3cret" "wrong").2 (by decide)).2.2⟩

/-- C8: a probe whose dependency was never configured is healthy by
default; when the ready flag is true, the overall readiness body is the
conjunction of the two probe verdicts and the status is 200 exactly when
that conjunction holds; in particular `GET /ready` with no dependencies
configured and ready = true returns 200 with body true. -/
theorem c8_defaults_and_conjunction
    (readyFlag dbEngine redisClient : Bool)
    (dbAttempt redisAttempt : Nat → Bool) :
    (check_db false dbAttempt).healthy = true ∧
    (check_redis false redisAttempt).healthy = true ∧
    (readyFlag = true →
      (ready readyFlag dbEngine redisClient dbAttempt redisAttempt).readyBody =
        ((check_db dbEngine dbAttempt).healthy &&
          (check_redis redisClient redisAttempt).healthy) ∧
      (ready readyFlag dbEngine redisClient dbAttempt redisAttempt).status =
        (if (check_db dbEngine dbAttempt).healthy &&
            (check_redis redisClient redisAttempt).healthy then 200 else 503)) ∧
    ready true false false dbAttempt redisAttempt = ⟨200, true, true⟩ := by
  refine ⟨by simp [check_db], by simp [check_redis], ?_, by simp [ready, check_db, check_redis]⟩
  intro h
  subst h
  constructor
  · simp [ready]
  · simp [ready]

/-- Witness for C8 with ready = true, both dependencies configured, the
database failing every attempt and redis healthy. -/
theorem c8_defaults_and_conjunction_witness :
    (check_db false (fun _ => false)).healthy = true ∧
    (ready true true true (fun _ => false) (fun _ => true)).readyBody = false ∧
    ready true false false (fun _ => false) (fun _ => true) = ⟨200, true, true⟩ :=
  ⟨(c8_defaults_and_conjunction true true true (fun _ => false) (fun _ => true)).1,
   by
    have h := ((c8_defaults_and_conjunction true true true
      (fun _ => false) (fun _ => true)).2.2.1 rfl).1
    rw [h]
    decide,
   (c8_defaults_and_conjunction true true true (fun _ => false) (fun _ => true)).2.2.2⟩

/-- C9: a rate tick entered with accumulator `C` and elapsed window `T`
publishes exactly `C / max T ε` (the denominator is always positive, so the
division is guarded), resets the accumulator to zero and advances the
window timestamp to `now`; a following tick with no recorded work publishes
0. -/
theorem c9_rate_tick (s : RateState) (now now2 : ℚ) (C : Nat) (T : ℚ)
    (hC : s.rateWindow = C) (hT : now - s.rateTs = T) :
    (rate_tick s now).2 = (C : ℚ) / max T rateEpsilon ∧
    0 < max T rateEpsilon ∧
    (rate_tick s now).1.rateWindow = 0 ∧
    (rate_tick s now).1.rateTs = now ∧
    (rate_tick (rate_tick s now).1 now2).2 = 0 := by
  subst hC hT
  refine ⟨rfl, ?_, rfl, rfl, ?_⟩
  · exact lt_of_lt_of_le (by norm_num [rateEpsilon]) (le_max_right _ _)
  · simp [rate_tick]

/-- Witness for C9: accumulator 5 over a 2-second window publishes 5/2, and
the following idle tick publishes 0. -/
theorem c9_rate_tick_witness :
    (rate_tick ⟨5, 2⟩ 4).2 = (5 : ℚ) / max 2 rateEpsilon ∧
    (rate_tick (rate_tick ⟨5, 2⟩ 4).1 6).2 = 0 :=
  ⟨(c9_rate_tick ⟨5, 2⟩ 4 6 5 2 rfl (by norm_num)).1,
   (c9_rate_tick ⟨5, 2⟩ 4 6 5 2 rfl (by norm_num)).2.2.2.2⟩

/-- C3: a configured probe attempts the round-trip up to 3 times (healthy
exactly when one of the three attempts succeeds, unhealthy only once all
three failed), pauses 300 ms between consecutive attempts, each attempt is
bounded by the per-attempt timeout (`asyncio.wait_for` makes an attempt
that exceeds it fail), and an underlying check that fails once then
succeeds yields a healthy probe and overall readiness true. -/
theorem c3_probe_retry (att : Nat → Bool) :
    ((check_db true att).healthy = (att 0 || att 1 || att 2)) ∧
    ((check_redis true att).healthy = (att 0 || att 1 || att 2)) ∧
    attemptsIn (check_db true att).trace ≤ 3 ∧
    (∀ ms, ProbeEvent.sleepMs ms ∈ (check_db true att).trace → ms = 300) ∧
    sleepsIn (check_db true att).trace + 1 = attemptsIn (check_db true att).trace ∧
    (∀ tmo d ok, attemptOk tmo d ok = true → d ≤ tmo) ∧
    (check_db true (fun i => decide (0 < i))).healthy = true ∧
    ready true true true (fun i => decide (0 < i)) (fun i => decide (0 < i)) =
      ⟨200, true, true⟩ := by
  refine ⟨check_db_healthy_eq att, check_redis_healthy_eq att, ?_, ?_, ?_, ?_, ?_, ?_⟩
  · cases h0 : att 0 <;> cases h1 : att 1 <;> cases h2 : att 2 <;>
      simp [check_db, retryFrom, range3_eq, h0, h1, h2, attemptsIn, isAttempt]
  · cases h0 : att 0 <;> cases h1 : att 1 <;> cases h2 : att 2 <;>
      simp [check_db, retryFrom, range3_eq, h0, h1, h2]
  · cases h0 : att 0 <;> cases h1 : att 1 <;> cases h2 : att 2 <;>
      simp [check_db, retryFrom, range3_eq, h0, h1, h2, attemptsIn, sleepsIn,
        isAttempt]
  · intro tmo d ok h
    simp [attemptOk] at h
    exact h.2
  · decide
  · decide

/-- Witness for C3: the fail-once-then-succeed schedule is healthy, a
pause observed in the all-failing trace is 300 ms, and a concrete in-bound
attempt respects the timeout. -/
theorem c3_probe_retry_witness :
    (check_db true (fun i => decide (0 < i))).healthy = true ∧
    (300 : Nat) = 300 ∧
    (1 : ℚ) ≤ 3 / 2 :=
  ⟨(c3_probe_retry (fun i => decide (0 < i))).2.2.2.2.2.2.1,
   (c3_probe_retry (fun _ => false)).2.2.2.1 300 (by decide),
   (c3_probe_retry (fun _ => false)).2.2.2.2.2.1 (3 / 2) 1 true
     (by norm_num [attemptOk])⟩

/-! ## C6: the drain wait loop -/

lemma drainWait_le (active : Nat → Nat) (fuel : Nat) :
    ∀ k, drainWait active k fuel ≤ k + fuel := by
  induction fuel with
  | zero => intro k; simp [drainWait]
  | succ n ih =>
      intro k
      by_cases h : 0 < active k
      · have hk := ih (k + 1)
        simp [drainWait, h]
        omega
      · simp [drainWait, h]

lemma drainWait_all_pos (active : Nat → Nat) (fuel : Nat) :
    ∀ k, (∀ j, k ≤ j → j < k + fuel → 0 < active j) →
      drainWait active k fuel = k + fuel := by
  induction fuel with
  | zero => intro k _; simp [drainWait]
  | succ n ih =>
      intro k hall
      have hk : 0 < active k := hall k le_rfl (by omega)
      have := ih (k + 1) (fun j h1 h2 => hall j (by omega) (by omega))
      simp [drainWait, hk]
      omega

lemma drainWait_hits_zero (active : Nat → Nat) (fuel : Nat) :
    ∀ k k0, k ≤ k0 → k0 ≤ k + fuel → active k0 = 0 →
      (∀ j, k ≤ j → j < k0 → 0 < active j) → drainWait active k fuel = k0 := by
  induction fuel with
  | zero =>
      intro k k0 h1 h2 _ _
      have : k = k0 := by omega
      simp [drainWait, this]
  | succ n ih =>
      intro k k0 h1 h2 h0 hpos
      rcases Nat.eq_or_lt_of_le h1 with heq | hlt
      · subst heq
        have : ¬ 0 < active k := by omega
        simp [drainWait, this]
      · have hk : 0 < active k := hpos k le_rfl hlt
        have := ih (k + 1) k0 (by omega) (by omega) h0
          (fun j hj1 hj2 => hpos j (by omega) hj2)
        simp [drainWait, hk]
        omega

/-- C6: the drain wait loop exits at the first poll at which
`active_requests` is 0 when that happens within the grace period (early,
not at the full deadline), and exits exactly when the grace period elapses
when `active_requests` stays positive throughout. -/
theorem c6_drain_wait (active : Nat → Nat) (graceTicks k0 : Nat) :
    (k0 ≤ graceTicks → active k0 = 0 → (∀ j, j < k0 → 0 < active j) →
      drainWait active 0 graceTicks = k0) ∧
    ((∀ k, k < graceTicks → 0 < active k) →
      drainWait active 0 graceTicks = graceTicks) := by
  constructor
  · intro h1 h2 h3
    exact drainWait_hits_zero active graceTicks 0 k0 (Nat.zero_le _)
      (by omega) h2 (fun j _ hj => h3 j hj)
  · intro hall
    have := drainWait_all_pos active graceTicks 0
      (fun j _ hj => hall j (by omega))
    omega

/-- Witness for C6: three in-flight requests that finish at tick 2 of a
10-tick grace period make the loop exit at tick 2; a single request that
never finishes makes a 3-tick grace loop exit at tick 3. -/
theorem c6_drain_wait_witness :
    drainWait (fun k => if k < 2 then 3 else 0) 0 10 = 2 ∧
    drainWait (fun _ => 1) 0 3 = 3 :=
  ⟨(c6_drain_wait (fun k => if k < 2 then 3 else 0) 10 2).1 (by decide)
      (by decide) (by decide),
   (c6_drain_wait (fun _ => 1) 3 0).2 (fun _ _ => by decide)⟩

/-! ## C1: interceptor exit accounting -/

/-- C1 counterexample: on a request whose handler raises, the interceptor
emits no counter increment (nor observation, nor log record) — only the
`finally` decrement runs before the exception propagates, refuting the
claim as stated at the concrete input `outcome = failure`. -/
theorem c1_counterexample : ¬ statedC1 := by
  intro h
  obtain ⟨-, ⟨s, hs⟩, -, -⟩ := h 0 "r" "GET" "/x" HandlerOutcome.failure 0
  simp [metrics_and_drain] at hs

/-- C1 (amended): on every pass through the interceptor, the raising case
included, `active_requests` is decremented back to its entry value before
the outcome propagates; the labelled counter increment, histogram
observation and structured log record are additionally emitted when the
handler produced a response, and are skipped (no counter increment at all)
when the handler raised, in which case the exception propagates
(`response = none`). -/
theorem c1_exit_accounting (active : Int) (rid m p : String)
    (o : HandlerOutcome) (d : Nat) :
    (metrics_and_drain active rid m p o d).active = active ∧
    MwEvent.decActive ∈ (metrics_and_drain active rid m p o d).events ∧
    (∀ s, o = HandlerOutcome.success s →
      MwEvent.countInc m p s ∈ (metrics_and_drain active rid m p o d).events ∧
      MwEvent.observe m p d ∈ (metrics_and_drain active rid m p o d).events ∧
      MwEvent.logRecord rid m p s d ∈ (metrics_and_drain active rid m p o d).events ∧
      (metrics_and_drain active rid m p o d).response = some s) ∧
    (o = HandlerOutcome.failure →
      (metrics_and_drain active rid m p o d).response = none ∧
      ∀ s, MwEvent.countInc m p s ∉ (metrics_and_drain active rid m p o d).events) := by
  cases o with
  | success st =>
      refine ⟨by simp [metrics_and_drain], by simp [metrics_and_drain], ?_, ?_⟩
      · intro s hs
        have hst : st = s := by injection hs
        subst hst
        refine ⟨?_, ?_, ?_, ?_⟩ <;> simp [metrics_and_drain]
      · intro hs
        simp at hs
  | failure =>
      refine ⟨by simp [metrics_and_drain], by simp [metrics_and_drain], ?_, ?_⟩
      · intro s hs
        simp at hs
      · intro _
        refine ⟨rfl, ?_⟩
        intro s
        simp [metrics_and_drain]

/-- Witness for C1 at a successful 200 response and at a raising handler. -/
theorem c1_exit_accounting_witness :
    MwEvent.countInc "GET" "/x" 200 ∈
      (metrics_and_drain 0 "r" "GET" "/x" (HandlerOutcome.success 200) 7).events ∧
    (metrics_and_drain 0 "r" "GET" "/x" HandlerOutcome.failure 7).response = none ∧
    MwEvent.countInc "GET" "/x" 500 ∉
      (metrics_and_drain 0 "r" "GET" "/x" HandlerOutcome.failure 7).events :=
  ⟨((c1_exit_accounting 0 "r" "GET" "/x" (HandlerOutcome.success 200) 7).2.2.1
      200 rfl).1,
   ((c1_exit_accounting 0 "r" "GET" "/x" HandlerOutcome.failure 7).2.2.2 rfl).1,
   ((c1_exit_accounting 0 "r" "GET" "/x" HandlerOutcome.failure 7).2.2.2 rfl).2 500⟩

/-! ## C2: the drain sequence -/

/-- C2 counterexample: `on_shutdown` never sets the ready flag to false — a
run entered with `ready = true` ends with `ready` still true — refuting the
claim as stated at a concrete input (the same run with a raising
`http.aclose` also skips the redis and database releases). -/
theorem c2_counterexample : ¬ statedC2 := by
  intro h
  have hready := (h true (fun _ => 0) 0 ⟨true, true, true, true⟩
    ⟨true, false, false⟩).1
  simp [on_shutdown] at hready

/-- C2 (amended): the drain sequence polls `active_requests` until zero or
the grace deadline (the wait exits within the grace period), then cancels
the rate aggregator task, then releases the HTTP client, cache connection
and database pool in that fixed order; it leaves the ready flag unchanged
(readiness is flipped separately by the signal handler and `/prestop`), and
an exception raised by one release propagates immediately, so the remaining
releases do not run. -/
theorem c2_drain_sequence (readyFlag : Bool) (active : Nat → Nat)
    (graceTicks : Nat) (res : Resources) (raises : ReleaseRaises) :
    (on_shutdown readyFlag active graceTicks res raises).ready = readyFlag ∧
    (on_shutdown readyFlag active graceTicks res raises).waitExitTick ≤ graceTicks ∧
    (raises = ⟨false, false, false⟩ →
      (on_shutdown readyFlag active graceTicks res raises).events =
        (if res.rateTask then [DrainEvent.cancelRateTask] else []) ++
        (if res.http then [DrainEvent.releaseHttp] else []) ++
        (if res.redis then [DrainEvent.releaseRedis] else []) ++
        (if res.dbEngine then [DrainEvent.releaseDb] else []) ∧
      (on_shutdown readyFlag active graceTicks res raises).excEscaped = false) ∧
    (res.http = true → raises.http = true →
      DrainEvent.releaseRedis ∉ (on_shutdown readyFlag active graceTicks res raises).events ∧
      DrainEvent.releaseDb ∉ (on_shutdown readyFlag active graceTicks res raises).events ∧
      (on_shutdown readyFlag active graceTicks res raises).excEscaped = true) := by
  obtain ⟨rt, rh, rr, rd⟩ := res
  obtain ⟨xh, xr, xd⟩ := raises
  refine ⟨rfl, ?_, ?_, ?_⟩
  · simpa using drainWait_le active graceTicks 0
  · intro h
    simp only [ReleaseRaises.mk.injEq] at h
    obtain ⟨h1, h2, h3⟩ := h
    subst h1 h2 h3
    cases rt <;> cases rh <;> cases rr <;> cases rd <;>
      simp [on_shutdown, runReleases]
  · intro hh hx
    simp only at hh hx
    subst hh hx
    cases rt <;> simp [on_shutdown, runReleases]

/-- Witness for C2: with nothing raising all four steps run in the fixed
order; with `http.aclose` raising the database pool is never released. -/
theorem c2_drain_sequence_witness :
    (on_shutdown true (fun _ => 0) 0 ⟨true, true, true, true⟩
      ⟨false, false, false⟩).events =
      [DrainEvent.cancelRateTask, DrainEvent.releaseHttp,
       DrainEvent.releaseRedis, DrainEvent.releaseDb] ∧
    DrainEvent.releaseDb ∉ (on_shutdown true (fun _ => 0) 0
      ⟨true, true, true, true⟩ ⟨true, false, false⟩).events := by
  constructor
  · have h := ((c2_drain_sequence true (fun _ => 0) 0 ⟨true, true, true, true⟩
      ⟨false, false, false⟩).2.2.1 rfl).1
    simpa using h
  · exact ((c2_drain_sequence true (fun _ => 0) 0 ⟨true, true, true, true⟩
      ⟨true, false, false⟩).2.2.2 rfl rfl).2.1

/-! ## C10: deps.py probes versus main.py probes -/

/-- C10 counterexample: with the database configured and a round-trip that
fails on the first attempt but succeeds on the second, the main.py probe
retries and reports healthy while the deps.py probe reports unhealthy, so
the two disagree. -/
theorem c10_counterexample : ¬ statedC10 := by
  intro h
  have hdb := (h true true (fun i => decide (0 < i))).1
  exact absurd hdb (by decide)

/-- C10 (amended): the deps.py probes perform a single bounded attempt with
no retry (they return the verdict of attempt 0 when the dependency is
configured, healthy otherwise); they return the same verdict as the
3-attempt main.py probes of the same names exactly when the dependency is
unconfigured, or the first attempt succeeds, or the two retries would fail
as well — they diverge precisely when the first attempt fails and some
retry would succeed. -/
theorem c10_deps_vs_main (dbEngine redisClient : Bool)
    (att ratt : Nat → Bool) :
    deps_check_db true true att = att 0 ∧
    deps_check_redis true ratt = ratt 0 ∧
    deps_check_db false true att = true ∧
    deps_check_redis false ratt = true ∧
    (deps_check_db dbEngine true att = (check_db dbEngine att).healthy ↔
      (dbEngine = false ∨ att 0 = true ∨ (att 1 = false ∧ att 2 = false))) ∧
    (deps_check_redis redisClient ratt = (check_redis redisClient ratt).healthy ↔
      (redisClient = false ∨ ratt 0 = true ∨ (ratt 1 = false ∧ ratt 2 = false))) := by
  refine ⟨rfl, rfl, rfl, rfl, ?_, ?_⟩
  · cases dbEngine
    · simp [deps_check_db, check_db]
    · rw [check_db_healthy_eq]
      cases h0 : att 0 <;> cases h1 : att 1 <;> cases h2 : att 2 <;>
        simp [deps_check_db, h0, h1, h2]
  · cases redisClient
    · simp [deps_check_redis, check_redis]
    · rw [check_redis_healthy_eq]
      cases h0 : ratt 0 <;> cases h1 : ratt 1 <;> cases h2 : ratt 2 <;>
        simp [deps_check_redis, h0, h1, h2]

/-- Witness for C10: at an all-failing round-trip the two database probes
agree, and the unconfigured redis probe is healthy. -/
theorem c10_deps_vs_main_witness :
    deps_check_db true true (fun _ => false) =
      (check_db true (fun _ => false)).healthy ∧
    deps_check_redis false (fun _ => true) = true :=
  ⟨(c10_deps_vs_main true false (fun _ => false) (fun _ => false)).2.2.2.2.1.mpr
      (Or.inr (Or.inr ⟨rfl, rfl⟩)),
   (c10_deps_vs_main true false (fun _ => false) (fun _ => true)).2.2.2.1⟩

/-! ## C5: the active-request counter over interleaved traces -/

lemma foldl_applyEvent (tr : List ReqEvent) :
    ∀ n : Int, tr.foldl applyEvent n =
      n + (startsOf tr).length - (stopsOf tr).length := by
  induction tr with
  | nil => intro n; simp [startsOf, stopsOf]
  | cons e t ih =>
      intro n
      cases e with
      | start i =>
          simp only [List.foldl_cons, applyEvent, startsOf, List.length_cons,
            stopsOf, ih]
          push_cast
          ring
      | stop i =>
          simp only [List.foldl_cons, applyEvent, startsOf, List.length_cons,
            stopsOf, ih]
          push_cast
          ring

lemma wfFrom_invariant (tr : List ReqEvent) :
    ∀ (s p : List Nat) (n : Nat), wfFrom s p tr = true →
      s.Nodup → p.Nodup → p ⊆ s →
      (startsOf (tr.take n) ++ s).Nodup ∧
      (stopsOf (tr.take n) ++ p).Nodup ∧
      stopsOf (tr.take n) ++ p ⊆ s ++ startsOf (tr.take n) := by
  induction tr with
  | nil =>
      intro s p n _ hs hp hps
      simp only [List.take_nil, startsOf, stopsOf, List.nil_append]
      exact ⟨hs, hp, by simpa using hps⟩
  | cons e t ih =>
      intro s p n hwf hs hp hps
      cases e with
      | start i =>
          simp only [wfFrom, List.contains, Bool.and_eq_true, Bool.not_eq_true',
            List.elem_eq_mem, decide_eq_false_iff_not] at hwf
          obtain ⟨hnew, hwf⟩ := hwf
          cases n with
          | zero =>
              simp only [List.take_zero, startsOf, stopsOf, List.nil_append]
              exact ⟨hs, hp, by simpa using hps⟩
          | succ m =>
              have IH := ih (i :: s) p m hwf
                (List.nodup_cons.mpr ⟨hnew, hs⟩) hp
                (hps.trans (List.subset_cons_self i s))
              obtain ⟨A, B, C⟩ := IH
              simp only [List.take_succ_cons, startsOf, stopsOf]
              refine ⟨?_, B, ?_⟩
              · simpa using List.perm_middle.nodup A
              · intro x hx
                have hx2 := C hx
                simp only [List.mem_append, List.mem_cons] at hx2 ⊢
                tauto
      | stop i =>
          simp only [wfFrom, List.contains, Bool.and_eq_true, Bool.not_eq_true',
            List.elem_eq_mem, decide_eq_true_eq,
            decide_eq_false_iff_not] at hwf
          obtain ⟨⟨hmem, hnew⟩, hwf⟩ := hwf
          cases n with
          | zero =>
              simp only [List.take_zero, startsOf, stopsOf, List.nil_append]
              exact ⟨hs, hp, by simpa using hps⟩
          | succ m =>
              have IH := ih s (i :: p) m hwf hs
                (List.nodup_cons.mpr ⟨hnew, hp⟩)
                (List.cons_subset.mpr ⟨hmem, hps⟩)
              obtain ⟨A, B, C⟩ := IH
              simp only [List.take_succ_cons, startsOf, stopsOf]
              refine ⟨A, ?_, ?_⟩
              · simpa using List.perm_middle.nodup B
              · intro x hx
                simp only [List.cons_append, List.mem_cons, List.mem_append] at hx
                have hx2 : x ∈ stopsOf (t.take m) ++ (i :: p) := by
                  simp only [List.mem_append, List.mem_cons]
                  tauto
                exact C hx2

/-- C5: along every interceptor-producible trace of interleaved request
starts and stops (each accepted request incremented exactly once, and
decremented exactly once after its start), `active_requests` is at least 0
at every observable point, and equals exactly 0 once every started request
has stopped. -/
theorem c5_active_requests (tr : List ReqEvent) (h : WFTrace tr = true) :
    (∀ n, 0 ≤ activeAfter (tr.take n)) ∧
    ((∀ i ∈ startsOf tr, i ∈ stopsOf tr) → activeAfter tr = 0) := by
  have inv := fun n => wfFrom_invariant tr [] [] n h List.nodup_nil
    List.nodup_nil (List.Subset.refl [])
  constructor
  · intro n
    obtain ⟨A, B, C⟩ := inv n
    simp only [List.append_nil] at A B C
    have hlen : (stopsOf (tr.take n)).length ≤ (startsOf (tr.take n)).length :=
      (B.subperm C).length_le
    have heq := foldl_applyEvent (tr.take n) 0
    show 0 ≤ (tr.take n).foldl applyEvent 0
    omega
  · intro hall
    obtain ⟨A, B, C⟩ := inv tr.length
    simp only [List.take_length, List.append_nil] at A B C
    have h1 : (stopsOf tr).length ≤ (startsOf tr).length :=
      (B.subperm C).length_le
    have h2 : (startsOf tr).length ≤ (stopsOf tr).length :=
      (A.subperm fun x hx => hall x hx).length_le
    have heq := foldl_applyEvent tr 0
    show tr.foldl applyEvent 0 = 0
    omega

/-- Witness for C5: two overlapping requests that both finish leave the
counter at exactly 0, and it is non-negative at the intermediate points. -/
theorem c5_active_requests_witness :
    WFTrace [ReqEvent.start 1, ReqEvent.start 2, ReqEvent.stop 1,
      ReqEvent.stop 2] = true ∧
    activeAfter [ReqEvent.start 1, ReqEvent.start 2, ReqEvent.stop 1,
      ReqEvent.stop 2] = 0 ∧
    0 ≤ activeAfter ([ReqEvent.start 1, ReqEvent.start 2, ReqEvent.stop 1,
      ReqEvent.stop 2].take 3) :=
  ⟨by decide,
   (c5_active_requests _ (by decide)).2 (by decide),
   (c5_active_requests _ (by decide)).1 3⟩

end Sentinel
